import Mathlib

/-!
# Placement engine of signalcanvas, shallowly embedded

This file embeds the placement engine of the repository (the
`SignalProvider` context in `src/unnamed/part_000`) and proves the spec's
testable properties about it.

Modelling conventions:
* JavaScript numbers are modelled as rationals (`ℚ`); every arithmetic
  operation the engine performs on coordinates is exact at this scale.
* The `columnHeightsRef` object is modelled as an association list from
  column index (`ℤ`) to height (`ℚ`), kept sorted by ascending key.  This
  matches `Object.entries` enumeration order for the canonical
  non-negative integer keys the engine creates.
* JavaScript truthiness tests on heights (`ch[c] || 0`, `ch[c] ? _ : _`)
  are modelled explicitly: `undefined` and `0` are falsy.
* `useState`/`useRef` cells become fields of an explicit `BoardState`
  record; `nanoid` id generation becomes a fresh-counter field.
-/

set_option maxRecDepth 100000

namespace SignalCanvas

/-- A placed flag: the engine only ever reads the instance id, the catalog
key and the center coordinates (`left`, `top`), so the model carries just
those (part_000 lines 7-19). -/
structure PlacedFlag where
  id : Nat
  type : String
  left : ℚ
  top : ℚ
  deriving DecidableEq, Repr

/-- Grid configuration for auto-placement (part_000 lines 22-34). -/
structure GridConfig where
  startX : ℚ
  startY : ℚ
  itemWidth : ℚ
  itemHeight : ℚ
  horizontalSpacing : ℚ
  verticalSpacing : ℚ
  maxItemsPerColumn : ℤ
  columnWidth : ℚ
  canvasWidth : ℚ
  canvasHeight : ℚ
  safetyMargin : ℚ
  deriving DecidableEq, Repr

/-- Geometry input: device class plus the play-area rectangle when the
node is measurable (`none` models a null `playAreaRef`). -/
structure Env where
  mobile : Bool
  area : Option (ℚ × ℚ)
  deriving DecidableEq, Repr

/-- `getGridConfig` (part_000 lines 174-252): derives the grid geometry
from the current play-area size and device class, with fixed fallback
values when the play area is not available. -/
def getGridConfig (env : Env) : GridConfig :=
  let isMobile := env.mobile
  let itemWidth : ℚ := if isMobile then 42 else 64
  let itemHeight : ℚ := if isMobile then 42 else 64
  let horizontalSpacing : ℚ := if isMobile then 20 else 24
  let verticalSpacing : ℚ := if isMobile then 10 else 20
  let columnWidth : ℚ := itemWidth + horizontalSpacing
  let safetyMargin : ℚ := if isMobile then 16 else 16
  match env.area with
  | none =>
      { startX := if isMobile then 40 else 80
        startY := if isMobile then 45 else 55
        itemWidth := itemWidth, itemHeight := itemHeight
        horizontalSpacing := horizontalSpacing, verticalSpacing := verticalSpacing
        maxItemsPerColumn := if isMobile then 8 else 5
        columnWidth := columnWidth
        canvasWidth := 320, canvasHeight := 480
        safetyMargin := safetyMargin }
  | some (areaWidth, areaHeight) =>
      let bottomSafetyBuffer : ℚ := if isMobile then 60 else 100
      let heightBuffer : ℚ := if isMobile then 40 else 100
      let maxItemsPerColumn : ℤ :=
        max 1 (Int.floor ((areaHeight - heightBuffer - bottomSafetyBuffer) / (itemHeight + verticalSpacing)))
      let startX : ℚ :=
        if isMobile then max (itemWidth / 2 + safetyMargin) (min 36 (areaWidth * 0.1))
        else (areaWidth - (3 * columnWidth - horizontalSpacing)) / 2
      let startY : ℚ := if isMobile then max (itemHeight / 2 + safetyMargin) 45 else 55
      { startX := startX, startY := startY
        itemWidth := itemWidth, itemHeight := itemHeight
        horizontalSpacing := horizontalSpacing, verticalSpacing := verticalSpacing
        maxItemsPerColumn := if isMobile then max maxItemsPerColumn 8 else maxItemsPerColumn
        columnWidth := columnWidth
        canvasWidth := areaWidth, canvasHeight := areaHeight
        safetyMargin := safetyMargin }

/-- `wouldExceedCanvasBoundary` (part_000 lines 255-274): true when any
edge of the flag centred at `(left, top)` crosses the safety-margined
canvas edge. -/
def wouldExceedCanvasBoundary (left top : ℚ) (cfg : GridConfig) : Bool :=
  let halfWidth := cfg.itemWidth / 2
  let halfHeight := cfg.itemHeight / 2
  let margin := cfg.safetyMargin
  decide (left - halfWidth < margin) ||
  decide (left + halfWidth > cfg.canvasWidth - margin) ||
  decide (top - halfHeight < margin) ||
  decide (top + halfHeight > cfg.canvasHeight - margin)

/-! ## Column-heights map -/

/-- Height map: association list sorted by ascending column key, matching
`Object.entries` order for the non-negative integer keys the engine uses. -/
abbrev ColHeights := List (ℤ × ℚ)

/-- Lookup, `undefined` as `none`. -/
def chGet (ch : ColHeights) (c : ℤ) : Option ℚ :=
  (ch.find? (fun p => p.1 = c)).map (fun p => p.2)

/-- `ch[c] || 0`: `undefined` and `0` are both falsy and yield `0`. -/
def chGetD (ch : ColHeights) (c : ℤ) : ℚ :=
  (chGet ch c).getD 0

/-- Insert or replace a key, keeping the list sorted by key. -/
def chSet : ColHeights → ℤ → ℚ → ColHeights
  | [], c, v => [(c, v)]
  | (k, h) :: rest, c, v =>
      if c < k then (c, v) :: (k, h) :: rest
      else if c = k then (c, v) :: rest
      else (k, h) :: chSet rest c v

/-! ## Reconciliation (`updateGridPositionFromExistingFlags`) -/

/-- One step of the `flags.forEach` at part_000 lines 132-140: assign the
flag to a column, skip negative columns, record the max bottom edge. -/
def chStep (cfg : GridConfig) (ch : ColHeights) (f : PlacedFlag) : ColHeights :=
  let col : ℤ := Int.floor ((f.left - cfg.startX) / cfg.columnWidth)
  let rowBottom : ℚ := f.top + cfg.itemHeight / 2
  if 0 ≤ col then chSet ch col (max (chGetD ch col) rowBottom) else ch

/-- Column heights recomputed from scratch (part_000 lines 128-140). -/
def computeColumnHeights (flags : List PlacedFlag) (cfg : GridConfig) : ColHeights :=
  flags.foldl (chStep cfg) []

/-- One step of the `Object.entries` fold at part_000 lines 146-152:
keep the strictly smaller height, `none` standing for `Infinity`. -/
def minHeightStep (acc : ℤ × Option ℚ) (p : ℤ × ℚ) : ℤ × Option ℚ :=
  match acc.2 with
  | none => (p.1, some p.2)
  | some m => if p.2 < m then (p.1, some p.2) else acc

/-- The `Object.entries` fold at part_000 lines 143-152: column with the
smallest height (ties keep the earlier, i.e. lower, column index). -/
def minHeightEntry (ch : ColHeights) : ℤ × Option ℚ :=
  ch.foldl minHeightStep (0, none)

/-- The `while` loop at part_000 lines 161-165, searching for the first
column that is absent, falsy, or not taller than one item.  The fuel
`ch.length + 1` suffices: each continued step consumes a distinct key. -/
def findNextColAux (ch : ColHeights) (cfg : GridConfig) : Nat → ℤ → ℤ
  | 0, n => n
  | fuel + 1, n =>
      match chGet ch n with
      | some h =>
          if h ≠ 0 ∧ h > cfg.startY + cfg.itemHeight then findNextColAux ch cfg fuel (n + 1)
          else n
      | none => n

def findNextCol (ch : ColHeights) (cfg : GridConfig) : ℤ :=
  findNextColAux ch cfg (ch.length + 1) 0

/-- The non-empty tail of `updateGridPositionFromExistingFlags`
(part_000 lines 142-169): pick the shallowest column, derive its next
row, and roll to the next free column when that row is past capacity.
Depends on the flags only through the computed column heights. -/
def updateGridCore (ch : ColHeights) (cfg : GridConfig) : (ℤ × ℤ) × ColHeights :=
  let minHeightCol := (minHeightEntry ch).1
  let minHeightRow : ℤ :=
    match chGet ch minHeightCol with
    | some h =>
        if h ≠ 0 then Int.ceil ((h - cfg.startY) / (cfg.itemHeight + cfg.verticalSpacing))
        else 0
    | none => 0
  if minHeightRow ≥ cfg.maxItemsPerColumn then ((findNextCol ch cfg, 0), ch)
  else ((minHeightCol, minHeightRow), ch)

/-- `updateGridPositionFromExistingFlags` (part_000 lines 118-170):
recomputes the column heights and the next cursor slot from the placed
flags alone.  Returns `((col, row), columnHeights)`. -/
def updateGridPositionFromExistingFlags (flags : List PlacedFlag) (cfg : GridConfig) :
    (ℤ × ℤ) × ColHeights :=
  if flags.isEmpty then ((0, 0), [])
  else updateGridCore (computeColumnHeights flags cfg) cfg

/-! ## Auto-placement position resolution -/

/-- Center of the grid slot in column `col` (part_000 line 289). -/
def slotLeft (cfg : GridConfig) (col : ℤ) : ℚ :=
  cfg.startX + (col : ℚ) * cfg.columnWidth + cfg.itemWidth / 2

/-- Center of the grid slot in row `row` (part_000 line 290). -/
def slotTop (cfg : GridConfig) (row : ℤ) : ℚ :=
  cfg.startY + (row : ℚ) * (cfg.itemHeight + cfg.verticalSpacing) + cfg.itemHeight / 2

/-- Strict right-boundary limit (part_000 line 293). -/
def maxRightPosition (cfg : GridConfig) : ℚ :=
  cfg.canvasWidth - cfg.itemWidth / 2 - cfg.safetyMargin

/-- The `boundaryExceeded` test (part_000 lines 296-301 and 367). -/
def boundaryFlag (cfg : GridConfig) (l t : ℚ) : Bool :=
  wouldExceedCanvasBoundary l t cfg || decide (l > maxRightPosition cfg)

/-- Result of resolving an auto-placement: the committed center, the
committed grid slot, and whether the exhaustion fallback fired. -/
structure ResolveResult where
  left : ℚ
  top : ℚ
  col : ℤ
  row : ℤ
  fallback : Bool
  deriving DecidableEq, Repr

/-- The mutable locals of the retry loop: candidate center, candidate
slot, and the `boundaryExceeded` flag. -/
structure LoopState where
  left : ℚ
  top : ℚ
  col : ℤ
  row : ℤ
  bE : Bool
  deriving DecidableEq, Repr

/-- One advance of `(col, row)` inside the retry loop (part_000 lines
311-353).  The interim `left`/`top` writes inside this block are dead:
both are unconditionally recomputed right after (lines 356-357), so only
the final column and row escape. -/
def autoLoopStep (cfg : GridConfig) (l t : ℚ) (col row : ℤ) : ℤ × ℤ :=
  if l + cfg.itemWidth / 2 + cfg.safetyMargin > cfg.canvasWidth then (0, row + 1)
  else if t + cfg.itemHeight / 2 + cfg.safetyMargin > cfg.canvasHeight then
    let c1 := col + 1
    let l1 := slotLeft cfg c1
    if l1 + cfg.itemWidth / 2 + cfg.safetyMargin > cfg.canvasWidth then
      match (List.range cfg.maxItemsPerColumn.toNat).find?
          (fun r => !(wouldExceedCanvasBoundary (cfg.startX + cfg.itemWidth / 2) (slotTop cfg (r : ℤ)) cfg)) with
      | some r => (0, (r : ℤ))
      | none => (0, 0)
    else (c1, 0)
  else (col, row + 1)

/-- One full iteration body of the retry loop (part_000 lines 308-367):
advance the slot, recompute the center from it (lines 356-357), apply the
enhanced right-boundary reset (lines 360-364), and re-evaluate the
`boundaryExceeded` flag (line 367). -/
def autoLoopNext (cfg : GridConfig) (st : LoopState) : LoopState :=
  let cr := autoLoopStep cfg st.left st.top st.col st.row
  let l1 := slotLeft cfg cr.1
  let t1 := slotTop cfg cr.2
  let cl : ℤ × ℚ :=
    if l1 + cfg.itemWidth / 2 + cfg.safetyMargin > cfg.canvasWidth then
      (0, cfg.startX + cfg.itemWidth / 2)
    else (cr.1, l1)
  ⟨cl.2, t1, cl.1, cr.2, boundaryFlag cfg cl.2 t1⟩

/-- The committed values of the last-resort branch (part_000 lines
370-377). -/
def fallbackResult (cfg : GridConfig) : ResolveResult :=
  ⟨cfg.startX + cfg.itemWidth / 2 + cfg.safetyMargin,
   cfg.startY + cfg.itemHeight / 2 + cfg.safetyMargin, 0, 0, true⟩

/-- The bounded retry loop of `autoPlaceFlag` (part_000 lines 304-378).
`fuel` starts at `maxAttempts = 20`, so after the body of an iteration
`attempts = 20 - fuel`; the last-resort break condition
`attempts >= maxAttempts - 1` is `fuel ≤ 1`. -/
def autoLoop (cfg : GridConfig) : Nat → LoopState → ResolveResult
  | 0, st => ⟨st.left, st.top, st.col, st.row, false⟩
  | fuel + 1, st =>
      if st.bE then
        let n := autoLoopNext cfg st
        if fuel ≤ 1 ∧ n.bE = true then fallbackResult cfg
        else autoLoop cfg fuel n
      else ⟨st.left, st.top, st.col, st.row, false⟩

/-- Position resolution of `autoPlaceFlag` from the cursor slot
`(col, row)` (part_000 lines 286-378). -/
def autoResolve (cfg : GridConfig) (col row : ℤ) : ResolveResult :=
  let l := slotLeft cfg col
  let t := slotTop cfg row
  autoLoop cfg 20 ⟨l, t, col, row, boundaryFlag cfg l t⟩

/-- One step of the `Object.entries` fold at part_000 lines 415-428:
take this column if it is strictly shorter and its next item would stay
in bounds. -/
def shortestStep (cfg : GridConfig) (acc : Bool × ℤ × Option ℚ) (p : ℤ × ℚ) :
    Bool × ℤ × Option ℚ :=
  let colLeft := slotLeft cfg p.1
  let better : Bool :=
    match acc.2.2 with
    | none => true
    | some m => decide (p.2 < m)
  if better && !(wouldExceedCanvasBoundary colLeft (p.2 + cfg.itemHeight) cfg)
      && decide (colLeft ≤ maxRightPosition cfg)
  then (true, p.1, some p.2)
  else acc

/-- The `Object.entries` fold at part_000 lines 411-428: shortest
in-bounds column, `(found, col, height)` with `none` for `Infinity`. -/
def shortestColSearch (ch : ColHeights) (cfg : GridConfig) : Bool × ℤ × Option ℚ :=
  ch.foldl (shortestStep cfg) (false, 0, none)

/-- Cursor advance after a commit (part_000 lines 396-441).  `r` is the
committed resolution; `ch` is the column-heights map already updated with
the committed item. -/
def advanceCursor (cfg : GridConfig) (r : ResolveResult) (ch : ColHeights) : ℤ × ℤ :=
  if r.row + 1 ≥ cfg.maxItemsPerColumn ∨
      wouldExceedCanvasBoundary r.left (r.top + cfg.itemHeight + cfg.verticalSpacing) cfg = true then
    let c1 := r.col + 1
    let nextColLeft := slotLeft cfg c1
    if nextColLeft + cfg.itemWidth / 2 + cfg.safetyMargin > cfg.canvasWidth then
      let s := shortestColSearch ch cfg
      if s.1 then (s.2.1, 0) else (0, 0)
    else (c1, 0)
  else (r.col, r.row + 1)

/-! ## Engine state and operations -/

/-- The engine-owned mutable state: the placed-item collection, the
placement cursor, the column-heights map, plus the fixed inventory and a
fresh-id counter standing in for `nanoid`. -/
structure BoardState where
  inventory : List String
  flags : List PlacedFlag
  cursorCol : ℤ
  cursorRow : ℤ
  columnHeights : ColHeights
  nextId : Nat
  deriving DecidableEq, Repr

def initState (inv : List String) : BoardState :=
  { inventory := inv, flags := [], cursorCol := 0, cursorRow := 0
    columnHeights := [], nextId := 0 }

/-- Re-derives cursor and column heights from the flags, leaving the
collection untouched: the engine's use of
`updateGridPositionFromExistingFlags` as a state mutation. -/
def reconcileState (cfg : GridConfig) (s : BoardState) : BoardState :=
  let rc := updateGridPositionFromExistingFlags s.flags cfg
  { s with cursorCol := rc.1.1, cursorRow := rc.1.2, columnHeights := rc.2 }

/-- `autoPlaceFlag` (part_000 lines 278-448): no-op on an unknown catalog
key; otherwise resolve a position from the cursor, append the new flag,
update the committed column's height, and advance the cursor. -/
def autoPlaceFlag (env : Env) (flagType : String) (s : BoardState) : BoardState :=
  if flagType ∈ s.inventory then
    let cfg := getGridConfig env
    let r := autoResolve cfg s.cursorCol s.cursorRow
    let newFlag : PlacedFlag := ⟨s.nextId, flagType, r.left, r.top⟩
    let ch1 := chSet s.columnHeights r.col
      (max (chGetD s.columnHeights r.col) (r.top + cfg.itemHeight / 2))
    let cur := advanceCursor cfg r ch1
    { s with flags := s.flags ++ [newFlag], columnHeights := ch1
             cursorCol := cur.1, cursorRow := cur.2, nextId := s.nextId + 1 }
  else s

/-- The compact-device component-wise clamp shared by `addFlag`
(part_000 lines 458-476) and `moveFlag` (lines 496-514). -/
def clampPos (cfg : GridConfig) (left top : ℚ) : ℚ × ℚ :=
  let halfWidth := cfg.itemWidth / 2
  let halfHeight := cfg.itemHeight / 2
  let margin := cfg.safetyMargin
  let l :=
    if left - halfWidth < margin then halfWidth + margin
    else if left + halfWidth > cfg.canvasWidth - margin then cfg.canvasWidth - halfWidth - margin
    else left
  let t :=
    if top - halfHeight < margin then halfHeight + margin
    else if top + halfHeight > cfg.canvasHeight - margin then cfg.canvasHeight - halfHeight - margin
    else top
  (l, t)

/-- `addFlag` (part_000 lines 450-489): manual placement at a drop point,
clamped on compact devices, followed by reconciliation. -/
def addFlag (env : Env) (flagType : String) (left top : ℚ) (s : BoardState) : BoardState :=
  if flagType ∈ s.inventory then
    let cfg := getGridConfig env
    let p := if env.mobile then clampPos cfg left top else (left, top)
    let newFlag : PlacedFlag := ⟨s.nextId, flagType, p.1, p.2⟩
    reconcileState cfg { s with flags := s.flags ++ [newFlag], nextId := s.nextId + 1 }
  else s

/-- `moveFlag` (part_000 lines 491-522): clamp on compact devices, update
the matching item in place, reconcile. -/
def moveFlag (env : Env) (id : Nat) (left top : ℚ) (s : BoardState) : BoardState :=
  let cfg := getGridConfig env
  let p := if env.mobile then clampPos cfg left top else (left, top)
  let flags1 := s.flags.map fun f => if f.id = id then { f with left := p.1, top := p.2 } else f
  reconcileState cfg { s with flags := flags1 }

/-- `removeFlag` (part_000 lines 524-531): filter out the id, reconcile. -/
def removeFlag (env : Env) (id : Nat) (s : BoardState) : BoardState :=
  let cfg := getGridConfig env
  let flags1 := s.flags.filter fun f => ¬(f.id = id)
  reconcileState cfg { s with flags := flags1 }

/-- `clearBoard` (part_000 lines 533-539). -/
def clearBoard (s : BoardState) : BoardState :=
  { s with flags := [], cursorCol := 0, cursorRow := 0, columnHeights := [] }

/-- The localStorage reload path (part_000 lines 87-99): install the
parsed flags and reconcile. -/
def loadFlags (env : Env) (flags : List PlacedFlag) (s : BoardState) : BoardState :=
  reconcileState (getGridConfig env) { s with flags := flags }

/-- One user-triggered engine operation, with the geometry feed re-read
at the call (spec §6). -/
inductive EngineOp where
  | auto (env : Env) (flagType : String)
  | add (env : Env) (flagType : String) (left top : ℚ)
  | move (env : Env) (id : Nat) (left top : ℚ)
  | remove (env : Env) (id : Nat)
  | clear
  | load (env : Env) (flags : List PlacedFlag)

def applyOp (s : BoardState) : EngineOp → BoardState
  | .auto env ty => autoPlaceFlag env ty s
  | .add env ty l t => addFlag env ty l t s
  | .move env id l t => moveFlag env id l t s
  | .remove env id => removeFlag env id s
  | .clear => clearBoard s
  | .load env flags => loadFlags env flags s

def runOps (inv : List String) (ops : List EngineOp) : BoardState :=
  ops.foldl applyOp (initState inv)

/-! ## Properties of the retry loop -/

/-- The flag stored by an iteration body is exactly the boundary test of
the center it stores (part_000 lines 356-367). -/
theorem autoLoopNext_bE (cfg : GridConfig) (st : LoopState) :
    (autoLoopNext cfg st).bE =
      boundaryFlag cfg (autoLoopNext cfg st).left (autoLoopNext cfg st).top := rfl

/-- A non-fallback exit of the retry loop carries a boundary flag that is
false, provided the flag entering each iteration describes its center and
fuel `0` is only reached with the flag already false. -/
theorem autoLoop_not_fallback (cfg : GridConfig) :
    ∀ (fuel : Nat) (st : LoopState),
      st.bE = boundaryFlag cfg st.left st.top →
      (fuel = 0 → st.bE = false) →
      (autoLoop cfg fuel st).fallback = false →
      boundaryFlag cfg (autoLoop cfg fuel st).left (autoLoop cfg fuel st).top = false := by
  intro fuel
  induction fuel with
  | zero =>
      intro st h1 h2 _
      simp only [autoLoop]
      rw [← h1]
      exact h2 rfl
  | succ fuel ih =>
      intro st h1 h2 hfb
      by_cases hbE : st.bE = true
      · simp only [autoLoop, hbE, if_true] at hfb ⊢
        by_cases hbr : fuel ≤ 1 ∧ (autoLoopNext cfg st).bE = true
        · rw [if_pos hbr] at hfb
          simp [fallbackResult] at hfb
        · rw [if_neg hbr] at hfb ⊢
          refine ih (autoLoopNext cfg st) (autoLoopNext_bE cfg st) ?_ hfb
          intro h0
          subst h0
          by_cases hb : (autoLoopNext cfg st).bE = true
          · exact absurd ⟨Nat.zero_le 1, hb⟩ hbr
          · simpa using hb
      · have hbf : st.bE = false := by simpa using hbE
        simp only [autoLoop, hbf, Bool.false_eq_true, if_false]
        rw [← h1]
        exact hbf

/-- A fallback exit of the retry loop returns exactly the last-resort
record of part_000 lines 370-377. -/
theorem autoLoop_fallback_eq (cfg : GridConfig) :
    ∀ (fuel : Nat) (st : LoopState),
      (autoLoop cfg fuel st).fallback = true →
      autoLoop cfg fuel st = fallbackResult cfg := by
  intro fuel
  induction fuel with
  | zero => intro st h; simp [autoLoop] at h
  | succ fuel ih =>
      intro st h
      by_cases hbE : st.bE = true
      · simp only [autoLoop, hbE, if_true] at h ⊢
        by_cases hbr : fuel ≤ 1 ∧ (autoLoopNext cfg st).bE = true
        · rw [if_pos hbr]
        · rw [if_neg hbr] at h ⊢
          exact ih _ h
      · have hbf : st.bE = false := by simpa using hbE
        simp [autoLoop, hbf] at h

/-! ## Claims -/

/-- C1: For every call to `autoPlaceFlag` whose position is resolved
within the retry cap (i.e., not via the exhaustion fallback), the
committed item's `(left, top)` satisfies
`!wouldExceedCanvasBoundary(left, top, config)` for the `GridConfig`
computed at the start of that call. -/
theorem claim_C1 (env : Env) (ty : String) (s : BoardState)
    (hty : ty ∈ s.inventory)
    (hfb : (autoResolve (getGridConfig env) s.cursorCol s.cursorRow).fallback = false) :
    (autoPlaceFlag env ty s).flags = s.flags ++
      [⟨s.nextId, ty, (autoResolve (getGridConfig env) s.cursorCol s.cursorRow).left,
                      (autoResolve (getGridConfig env) s.cursorCol s.cursorRow).top⟩]
    ∧ wouldExceedCanvasBoundary
        (autoResolve (getGridConfig env) s.cursorCol s.cursorRow).left
        (autoResolve (getGridConfig env) s.cursorCol s.cursorRow).top
        (getGridConfig env) = false := by
  constructor
  · simp [autoPlaceFlag, hty]
  · have h := autoLoop_not_fallback (getGridConfig env) 20
      ⟨slotLeft (getGridConfig env) s.cursorCol, slotTop (getGridConfig env) s.cursorRow,
       s.cursorCol, s.cursorRow,
       boundaryFlag (getGridConfig env) (slotLeft (getGridConfig env) s.cursorCol)
         (slotTop (getGridConfig env) s.cursorRow)⟩ rfl (by simp) hfb
    unfold boundaryFlag at h
    exact (Bool.or_eq_false_iff.mp h).1

/-- Witness for C1: on the default compact config, the first auto
placement resolves without the fallback and its committed center passes
the boundary check. -/
theorem claim_C1_witness :
    (autoPlaceFlag ⟨true, none⟩ "a" (initState ["a"])).flags =
      (initState ["a"]).flags ++
      [⟨(initState ["a"]).nextId, "a",
        (autoResolve (getGridConfig ⟨true, none⟩) (initState ["a"]).cursorCol
          (initState ["a"]).cursorRow).left,
        (autoResolve (getGridConfig ⟨true, none⟩) (initState ["a"]).cursorCol
          (initState ["a"]).cursorRow).top⟩]
    ∧ wouldExceedCanvasBoundary
        (autoResolve (getGridConfig ⟨true, none⟩) (initState ["a"]).cursorCol
          (initState ["a"]).cursorRow).left
        (autoResolve (getGridConfig ⟨true, none⟩) (initState ["a"]).cursorCol
          (initState ["a"]).cursorRow).top
        (getGridConfig ⟨true, none⟩) = false :=
  claim_C1 ⟨true, none⟩ "a" (initState ["a"]) (by simp [initState])
    (by with_unfolding_all decide)

/-- C4 counterexample: on a compact 50×50 canvas every slot violates the
boundary, so the retry cap is exhausted; the committed center is offset
by the safety margin from the first grid slot's center
`startX + itemWidth/2`, contradicting the claim's stated coordinates. -/
theorem claim_C4_cex :
    (autoResolve (getGridConfig ⟨true, some (50, 50)⟩) 0 0).fallback = true
    ∧ (autoResolve (getGridConfig ⟨true, some (50, 50)⟩) 0 0).left ≠
        (getGridConfig ⟨true, some (50, 50)⟩).startX +
          (getGridConfig ⟨true, some (50, 50)⟩).itemWidth / 2
    ∧ (autoResolve (getGridConfig ⟨true, some (50, 50)⟩) 0 0).top ≠
        (getGridConfig ⟨true, some (50, 50)⟩).startY +
          (getGridConfig ⟨true, some (50, 50)⟩).itemHeight / 2 := by
  with_unfolding_all decide

/-- C4 (amended): when `autoPlaceFlag` exhausts the retry cap it commits
the item at grid slot `(col 0, row 0)` with center
`(startX + itemWidth/2 + safetyMargin, startY + itemHeight/2 + safetyMargin)`
(the safety margin added to both axes), rather than dropping the item. -/
theorem claim_C4 (env : Env) (ty : String) (s : BoardState)
    (hty : ty ∈ s.inventory)
    (hfb : (autoResolve (getGridConfig env) s.cursorCol s.cursorRow).fallback = true) :
    (autoPlaceFlag env ty s).flags = s.flags ++
      [⟨s.nextId, ty,
        (getGridConfig env).startX + (getGridConfig env).itemWidth / 2 +
          (getGridConfig env).safetyMargin,
        (getGridConfig env).startY + (getGridConfig env).itemHeight / 2 +
          (getGridConfig env).safetyMargin⟩]
    ∧ (autoResolve (getGridConfig env) s.cursorCol s.cursorRow).col = 0
    ∧ (autoResolve (getGridConfig env) s.cursorCol s.cursorRow).row = 0 := by
  have heq : autoResolve (getGridConfig env) s.cursorCol s.cursorRow =
      fallbackResult (getGridConfig env) :=
    autoLoop_fallback_eq (getGridConfig env) 20 _ hfb
  refine ⟨?_, ?_, ?_⟩
  · simp [autoPlaceFlag, hty, heq, fallbackResult]
  · rw [heq]; rfl
  · rw [heq]; rfl

/-- Witness for C4: a compact 50×50 canvas exhausts the cap and the item
is still committed (appended), at the margin-offset first slot. -/
theorem claim_C4_witness :
    (autoPlaceFlag ⟨true, some (50, 50)⟩ "a" (initState ["a"])).flags =
      (initState ["a"]).flags ++
      [⟨(initState ["a"]).nextId, "a",
        (getGridConfig ⟨true, some (50, 50)⟩).startX +
          (getGridConfig ⟨true, some (50, 50)⟩).itemWidth / 2 +
          (getGridConfig ⟨true, some (50, 50)⟩).safetyMargin,
        (getGridConfig ⟨true, some (50, 50)⟩).startY +
          (getGridConfig ⟨true, some (50, 50)⟩).itemHeight / 2 +
          (getGridConfig ⟨true, some (50, 50)⟩).safetyMargin⟩]
    ∧ (autoResolve (getGridConfig ⟨true, some (50, 50)⟩) (initState ["a"]).cursorCol
        (initState ["a"]).cursorRow).col = 0
    ∧ (autoResolve (getGridConfig ⟨true, some (50, 50)⟩) (initState ["a"]).cursorCol
        (initState ["a"]).cursorRow).row = 0 :=
  claim_C4 ⟨true, some (50, 50)⟩ "a" (initState ["a"]) (by simp [initState])
    (by with_unfolding_all decide)

/-- C2 counterexample: on the default compact config the grid holds
4 columns × 8 rows = 32 slots; the 33rd consecutive `autoPlaceFlag` call
from the empty board (no manual edits interleaved, no fallback involved)
wraps the cursor to slot `(0, 0)` and re-commits the center `(61, 66)`
already used by the first item, so the position list is not
duplicate-free. -/
theorem claim_C2_cex :
    ¬ (((runOps ["a"] (List.replicate 33 (.auto ⟨true, none⟩ "a"))).flags.map
        fun f => (f.left, f.top)).Nodup)
    ∧ (((runOps ["a"] (List.replicate 33 (.auto ⟨true, none⟩ "a"))).flags.map
        fun f => (f.left, f.top)).head? = some (61, 66))
    ∧ (((runOps ["a"] (List.replicate 33 (.auto ⟨true, none⟩ "a"))).flags.map
        fun f => (f.left, f.top)).getLast? = some (61, 66)) := by
  with_unfolding_all decide

/-- C2 (amended): with no manual placements interleaved, auto-placements
from the empty board keep pairwise-distinct `(left, top)` only until the
grid saturates: on the default compact config the first 32 calls (the
full 4×8 grid) commit pairwise-distinct centers, and the 33rd call wraps
to the first slot and duplicates it. -/
theorem claim_C2 :
    (((runOps ["a"] (List.replicate 32 (.auto ⟨true, none⟩ "a"))).flags.map
        fun f => (f.left, f.top)).Nodup)
    ∧ (runOps ["a"] (List.replicate 32 (.auto ⟨true, none⟩ "a"))).flags.length = 32 := by
  with_unfolding_all decide

/-- C3 counterexample: there is no transition guard in the engine state.
After 7 calls the cursor is still in column 0; the 8th call performs the
column rollover (cursor moves to column 1); the claim says the guard set
by that rollover would make the next call return without placing, yet
9 calls commit 9 items — every call places. -/
theorem claim_C3_cex :
    (runOps ["a"] (List.replicate 7 (.auto ⟨true, none⟩ "a"))).cursorCol = 0
    ∧ (runOps ["a"] (List.replicate 8 (.auto ⟨true, none⟩ "a"))).cursorCol = 1
    ∧ (runOps ["a"] (List.replicate 9 (.auto ⟨true, none⟩ "a"))).flags.length = 9 := by
  with_unfolding_all decide

/-- C3 (amended): `autoPlaceFlag` has no transition guard: whenever the
requested catalog key is present in the inventory the call commits
exactly one new item (it never returns without placing), and its only
no-placement return is an unknown catalog key, which leaves the state
unchanged. -/
theorem claim_C3 (env : Env) (ty : String) (s : BoardState) :
    (ty ∈ s.inventory → (autoPlaceFlag env ty s).flags.length = s.flags.length + 1)
    ∧ (ty ∉ s.inventory → autoPlaceFlag env ty s = s) := by
  constructor
  · intro h
    simp [autoPlaceFlag, h]
  · intro h
    simp [autoPlaceFlag, h]

/-- Witness for C3: a present key adds exactly one item; an absent key is
a no-op. -/
theorem claim_C3_witness :
    (autoPlaceFlag ⟨true, none⟩ "a" (initState ["a"])).flags.length =
      (initState ["a"]).flags.length + 1
    ∧ autoPlaceFlag ⟨true, none⟩ "b" (initState ["a"]) = initState ["a"] :=
  ⟨(claim_C3 ⟨true, none⟩ "a" (initState ["a"])).1 (by simp [initState]),
   (claim_C3 ⟨true, none⟩ "b" (initState ["a"])).2 (by simp [initState])⟩

/-- C9: starting from the empty board on a compact device with a
measurable 320×480 canvas, the first four `autoPlaceFlag` calls for the
same catalog key commit at the column-0 centers of rows 0, 1, 2, 3
(`left = 58 = startX + itemWidth/2`, tops 66, 118, 170, 222), and none of
them lands at the column-1 center `left = 120`. -/
theorem claim_C9 :
    ((runOps ["a"] (List.replicate 4 (.auto ⟨true, some (320, 480)⟩ "a"))).flags.map
        fun f => (f.left, f.top)) =
      [(58, 66), (58, 118), (58, 170), (58, 222)]
    ∧ slotLeft (getGridConfig ⟨true, some (320, 480)⟩) 0 = 58
    ∧ slotTop (getGridConfig ⟨true, some (320, 480)⟩) 0 = 66
    ∧ slotTop (getGridConfig ⟨true, some (320, 480)⟩) 1 = 118
    ∧ slotTop (getGridConfig ⟨true, some (320, 480)⟩) 2 = 170
    ∧ slotTop (getGridConfig ⟨true, some (320, 480)⟩) 3 = 222
    ∧ slotLeft (getGridConfig ⟨true, some (320, 480)⟩) 1 = 120
    ∧ ((58 : ℚ), (66 : ℚ)).1 ≠ 120 := by
  with_unfolding_all decide

/-- The horizontal clamp lands in the claimed interval whenever that
interval is nonempty. -/
theorem clampPos_fst_mem (cfg : GridConfig) (l t : ℚ)
    (h : cfg.safetyMargin + cfg.itemWidth / 2 ≤
      cfg.canvasWidth - cfg.safetyMargin - cfg.itemWidth / 2) :
    cfg.safetyMargin + cfg.itemWidth / 2 ≤ (clampPos cfg l t).1 ∧
    (clampPos cfg l t).1 ≤ cfg.canvasWidth - cfg.safetyMargin - cfg.itemWidth / 2 := by
  unfold clampPos
  dsimp only
  split_ifs with h1 h2 <;> constructor <;> linarith

/-- The vertical clamp lands in the claimed interval whenever that
interval is nonempty. -/
theorem clampPos_snd_mem (cfg : GridConfig) (l t : ℚ)
    (h : cfg.safetyMargin + cfg.itemHeight / 2 ≤
      cfg.canvasHeight - cfg.safetyMargin - cfg.itemHeight / 2) :
    cfg.safetyMargin + cfg.itemHeight / 2 ≤ (clampPos cfg l t).2 ∧
    (clampPos cfg l t).2 ≤ cfg.canvasHeight - cfg.safetyMargin - cfg.itemHeight / 2 := by
  unfold clampPos
  dsimp only
  split_ifs with h1 h2 <;> constructor <;> linarith

/-- C5: on compact devices, manual placement (`addFlag`) and move
(`moveFlag`) clamp the given point component-wise into
`[safetyMargin + itemDim/2, canvasDim - safetyMargin - itemDim/2]` on
each axis before committing, never rejecting the drop. -/
theorem claim_C5 (env : Env) (ty : String) (l t : ℚ) (s : BoardState) (id : Nat)
    (hm : env.mobile = true) (hty : ty ∈ s.inventory) :
    (addFlag env ty l t s).flags = s.flags ++
      [⟨s.nextId, ty, (clampPos (getGridConfig env) l t).1,
        (clampPos (getGridConfig env) l t).2⟩]
    ∧ (moveFlag env id l t s).flags = s.flags.map
        (fun f => if f.id = id then
            { f with left := (clampPos (getGridConfig env) l t).1,
                     top := (clampPos (getGridConfig env) l t).2 }
          else f)
    ∧ ((getGridConfig env).safetyMargin + (getGridConfig env).itemWidth / 2 ≤
          (getGridConfig env).canvasWidth - (getGridConfig env).safetyMargin -
            (getGridConfig env).itemWidth / 2 →
        (getGridConfig env).safetyMargin + (getGridConfig env).itemWidth / 2 ≤
            (clampPos (getGridConfig env) l t).1 ∧
          (clampPos (getGridConfig env) l t).1 ≤
            (getGridConfig env).canvasWidth - (getGridConfig env).safetyMargin -
              (getGridConfig env).itemWidth / 2)
    ∧ ((getGridConfig env).safetyMargin + (getGridConfig env).itemHeight / 2 ≤
          (getGridConfig env).canvasHeight - (getGridConfig env).safetyMargin -
            (getGridConfig env).itemHeight / 2 →
        (getGridConfig env).safetyMargin + (getGridConfig env).itemHeight / 2 ≤
            (clampPos (getGridConfig env) l t).2 ∧
          (clampPos (getGridConfig env) l t).2 ≤
            (getGridConfig env).canvasHeight - (getGridConfig env).safetyMargin -
              (getGridConfig env).itemHeight / 2) := by
  refine ⟨?_, ?_, clampPos_fst_mem _ l t, clampPos_snd_mem _ l t⟩
  · simp [addFlag, hty, hm, reconcileState]
  · simp [moveFlag, hm, reconcileState]

/-- Witness for C5: the spec scenario — dropping at `(5, 5)` on a compact
device with `safetyMargin = 16` and item size 42 commits at
`left = 37, top = 37`. -/
theorem claim_C5_witness :
    (addFlag ⟨true, none⟩ "a" 5 5 (initState ["a"])).flags =
      (initState ["a"]).flags ++
      [⟨(initState ["a"]).nextId, "a", (clampPos (getGridConfig ⟨true, none⟩) 5 5).1,
        (clampPos (getGridConfig ⟨true, none⟩) 5 5).2⟩]
    ∧ clampPos (getGridConfig ⟨true, none⟩) 5 5 = (37, 37) :=
  ⟨(claim_C5 ⟨true, none⟩ "a" 5 5 (initState ["a"]) 0 rfl (by simp [initState])).1,
   by with_unfolding_all decide⟩

/-- The claim's formula for `maxItemsPerColumn`, amended to what the code
computes: the device-class vertical budget (100 compact, 200 regular) is
subtracted and the floor clamped to at least 1, but on compact devices
the result is additionally clamped to at least 8, and an unmeasurable
canvas yields the fixed defaults 8 (compact) / 5 (regular). -/
def maxItemsPerColumnAmended (env : Env) : ℤ :=
  match env.area with
  | none => if env.mobile then 8 else 5
  | some (_, areaHeight) =>
      let itemHeight : ℚ := if env.mobile then 42 else 64
      let verticalSpacing : ℚ := if env.mobile then 10 else 20
      let verticalBudget : ℚ := if env.mobile then 100 else 200
      let base := max 1 (Int.floor ((areaHeight - verticalBudget) / (itemHeight + verticalSpacing)))
      if env.mobile then max base 8 else base

/-- C6 counterexample: on a compact, measurable 320×480 canvas the code
returns `maxItemsPerColumn = 8` while the claim's formula
`max 1 ⌊(canvasHeight - verticalBudget) / (itemHeight + verticalSpacing)⌋`
gives 7, because the compact path additionally clamps to at least 8. -/
theorem claim_C6_cex :
    (getGridConfig ⟨true, some (320, 480)⟩).maxItemsPerColumn ≠
      max 1 (Int.floor ((480 - 100 : ℚ) / (42 + 10))) := by
  with_unfolding_all decide

/-- C6 (amended): `getGridConfig` is total and pure — for every geometry
input it returns a config whose `maxItemsPerColumn` is the amended
formula (device-class vertical budget, floor clamped to ≥ 1, compact
devices further clamped to ≥ 8, fixed defaults when unmeasurable), and
that value is always at least 1. -/
theorem claim_C6 (env : Env) :
    (getGridConfig env).maxItemsPerColumn = maxItemsPerColumnAmended env
    ∧ 1 ≤ (getGridConfig env).maxItemsPerColumn := by
  obtain ⟨m, area⟩ := env
  cases area with
  | none =>
      cases m <;> simp [getGridConfig, maxItemsPerColumnAmended]
  | some wh =>
      obtain ⟨w, h⟩ := wh
      cases m
      · constructor
        · show max 1 (Int.floor ((h - 100 - 100) / ((64 : ℚ) + 20))) =
            max 1 (Int.floor ((h - 200) / ((64 : ℚ) + 20)))
          rw [show (h : ℚ) - 100 - 100 = h - 200 from by ring]
        · exact le_max_left _ _
      · constructor
        · show max (max 1 (Int.floor ((h - 40 - 60) / ((42 : ℚ) + 10)))) 8 =
            max (max 1 (Int.floor ((h - 100) / ((42 : ℚ) + 10)))) 8
          rw [show (h : ℚ) - 40 - 60 = h - 100 from by ring]
        · exact le_trans (le_max_left _ _) (le_max_left _ _)

/-- C7: `updateGridPositionFromExistingFlags` recomputes cursor and
column heights from the flags alone, so applying it twice as a state
operation with a fixed `GridConfig` equals applying it once. -/
theorem claim_C7 (cfg : GridConfig) (s : BoardState) (h : 0 < cfg.columnWidth) :
    reconcileState cfg (reconcileState cfg s) = reconcileState cfg s := rfl

/-- A sample mid-session state used to instantiate hypotheses. -/
def sampleState : BoardState :=
  { inventory := ["a"], flags := [⟨0, "a", 61, 66⟩], cursorCol := 0, cursorRow := 1
    columnHeights := [(0, 87)], nextId := 1 }

/-- Witness for C7: idempotence at a concrete config and state. -/
theorem claim_C7_witness :
    reconcileState (getGridConfig ⟨true, none⟩)
        (reconcileState (getGridConfig ⟨true, none⟩) sampleState) =
      reconcileState (getGridConfig ⟨true, none⟩) sampleState :=
  claim_C7 (getGridConfig ⟨true, none⟩) sampleState (by with_unfolding_all decide)

/-- Mapping a conditional update over flags none of which carry the id
changes nothing. -/
theorem map_update_of_not_mem (flags : List PlacedFlag) (id : Nat)
    (g : PlacedFlag → PlacedFlag) (h : ∀ f ∈ flags, f.id ≠ id) :
    (flags.map fun f => if f.id = id then g f else f) = flags := by
  induction flags with
  | nil => rfl
  | cons hd tl ih =>
      simp only [List.map_cons]
      rw [if_neg (h hd (by simp)), ih (fun f hf => h f (by simp [hf]))]

/-- Filtering out an id carried by no flag changes nothing. -/
theorem filter_ne_of_not_mem (flags : List PlacedFlag) (id : Nat)
    (h : ∀ f ∈ flags, f.id ≠ id) :
    (flags.filter fun f => ¬(f.id = id)) = flags := by
  induction flags with
  | nil => rfl
  | cons hd tl ih =>
      rw [List.filter_cons_of_pos (by simpa using h hd (by simp)),
        ih (fun f hf => h f (by simp [hf]))]

/-- C8: for an id not present in the placed-item collection,
`moveFlag` and `removeFlag` leave the collection element-wise unchanged
— silent no-ops, not errors. -/
theorem claim_C8 (env : Env) (id : Nat) (l t : ℚ) (s : BoardState)
    (h : ∀ f ∈ s.flags, f.id ≠ id) :
    (moveFlag env id l t s).flags = s.flags
    ∧ (removeFlag env id s).flags = s.flags := by
  constructor
  · simp only [moveFlag, reconcileState]
    exact map_update_of_not_mem s.flags id _ h
  · simp only [removeFlag, reconcileState]
    exact filter_ne_of_not_mem s.flags id h

/-- Witness for C8: moving or removing id 5 on a board whose only item
has id 0 leaves the collection unchanged. -/
theorem claim_C8_witness :
    (moveFlag ⟨true, none⟩ 5 10 10 sampleState).flags = sampleState.flags
    ∧ (removeFlag ⟨true, none⟩ 5 sampleState).flags = sampleState.flags :=
  claim_C8 ⟨true, none⟩ 5 10 10 sampleState (by simp [sampleState])

/-! ## Key invariants of the column-heights map (claim C10) -/

/-- Every entry of `chSet ch c v` either has key `c` or comes from `ch`. -/
theorem chSet_mem (ch : ColHeights) (c : ℤ) (v : ℚ) :
    ∀ p ∈ chSet ch c v, p.1 = c ∨ p ∈ ch := by
  induction ch with
  | nil =>
      intro p hp
      simp only [chSet, List.mem_singleton] at hp
      subst hp
      exact Or.inl rfl
  | cons hd tl ih =>
      obtain ⟨k, hv⟩ := hd
      intro p hp
      simp only [chSet] at hp
      split_ifs at hp with h1 h2
      · rcases List.mem_cons.mp hp with h | h
        · subst h; exact Or.inl rfl
        · exact Or.inr h
      · rcases List.mem_cons.mp hp with h | h
        · subst h; exact Or.inl rfl
        · exact Or.inr (List.mem_cons_of_mem _ h)
      · rcases List.mem_cons.mp hp with h | h
        · subst h; exact Or.inr (List.mem_cons_self _ _)
        · rcases ih p h with h' | h'
          · exact Or.inl h'
          · exact Or.inr (List.mem_cons_of_mem _ h')

/-- The reconciliation fold only creates non-negative column keys. -/
theorem foldl_chStep_keys (cfg : GridConfig) :
    ∀ (flags : List PlacedFlag) (ch : ColHeights),
      (∀ p ∈ ch, 0 ≤ p.1) → ∀ p ∈ flags.foldl (chStep cfg) ch, 0 ≤ p.1 := by
  intro flags
  induction flags with
  | nil => intro ch h; simpa using h
  | cons f tl ih =>
      intro ch h
      simp only [List.foldl_cons]
      refine ih (chStep cfg ch f) ?_
      intro p hp
      simp only [chStep] at hp
      split_ifs at hp with h0
      · rcases chSet_mem _ _ _ p hp with h' | h'
        · rw [h']; exact h0
        · exact h p h'
      · exact h p hp

theorem computeColumnHeights_keys (flags : List PlacedFlag) (cfg : GridConfig) :
    ∀ p ∈ computeColumnHeights flags cfg, 0 ≤ p.1 :=
  foldl_chStep_keys cfg flags [] (by simp)

/-- The min-height fold returns either the seed's column or a column key
present in the list. -/
theorem foldl_minHeightStep_key :
    ∀ (ch : ColHeights) (acc : ℤ × Option ℚ),
      (ch.foldl minHeightStep acc).1 = acc.1
      ∨ (ch.foldl minHeightStep acc).1 ∈ ch.map Prod.fst := by
  intro ch
  induction ch with
  | nil => intro acc; exact Or.inl rfl
  | cons hd tl ih =>
      intro acc
      simp only [List.foldl_cons, List.map_cons]
      have hstep : (minHeightStep acc hd).1 = hd.1 ∨ (minHeightStep acc hd).1 = acc.1 := by
        unfold minHeightStep
        rcases acc.2 with _ | m
        · exact Or.inl rfl
        · dsimp only
          split_ifs
          · exact Or.inl rfl
          · exact Or.inr rfl
      rcases ih (minHeightStep acc hd) with h | h
      · rcases hstep with h' | h'
        · rw [h, h']; exact Or.inr (List.mem_cons_self _ _)
        · rw [h, h']; exact Or.inl rfl
      · exact Or.inr (List.mem_cons_of_mem _ h)

/-- The shortest-column fold returns either the seed's column or a column
key present in the list. -/
theorem foldl_shortestStep_key (cfg : GridConfig) :
    ∀ (ch : ColHeights) (acc : Bool × ℤ × Option ℚ),
      (ch.foldl (shortestStep cfg) acc).2.1 = acc.2.1
      ∨ (ch.foldl (shortestStep cfg) acc).2.1 ∈ ch.map Prod.fst := by
  intro ch
  induction ch with
  | nil => intro acc; exact Or.inl rfl
  | cons hd tl ih =>
      intro acc
      simp only [List.foldl_cons, List.map_cons]
      have hstep : (shortestStep cfg acc hd).2.1 = hd.1
          ∨ (shortestStep cfg acc hd).2.1 = acc.2.1 := by
        unfold shortestStep
        dsimp only
        split_ifs
        · exact Or.inl rfl
        · exact Or.inr rfl
      rcases ih (shortestStep cfg acc hd) with h | h
      · rcases hstep with h' | h'
        · rw [h, h']; exact Or.inr (List.mem_cons_self _ _)
        · rw [h, h']; exact Or.inl rfl
      · exact Or.inr (List.mem_cons_of_mem _ h)

/-- The next-column scan never returns a smaller column than it started
from. -/
theorem findNextColAux_nonneg (ch : ColHeights) (cfg : GridConfig) :
    ∀ (fuel : Nat) (n : ℤ), 0 ≤ n → 0 ≤ findNextColAux ch cfg fuel n := by
  intro fuel
  induction fuel with
  | zero => intro n h; simpa [findNextColAux] using h
  | succ fuel ih =>
      intro n h
      simp only [findNextColAux]
      cases chGet ch n with
      | none => exact h
      | some hh =>
          dsimp only
          split_ifs
          · exact ih (n + 1) (by omega)
          · exact h

/-- The reconciliation core keeps a non-negative cursor column whenever
all stored keys are non-negative. -/
theorem updateGridCore_cursor_nonneg (ch : ColHeights) (cfg : GridConfig)
    (hch : ∀ p ∈ ch, 0 ≤ p.1) : 0 ≤ (updateGridCore ch cfg).1.1 := by
  unfold updateGridCore
  dsimp only
  split_ifs with h2
  · exact findNextColAux_nonneg _ _ _ 0 (le_refl 0)
  · show 0 ≤ (minHeightEntry ch).1
    rcases foldl_minHeightStep_key ch (0, none) with h | h
    · simp only [minHeightEntry]
      simp only [h]
      exact le_refl 0
    · obtain ⟨p, hp, hpe⟩ := List.mem_map.mp h
      have hk := hch p hp
      simp only [minHeightEntry]
      omega

/-- Reconciliation always produces a non-negative cursor column. -/
theorem updateGrid_cursor_nonneg (flags : List PlacedFlag) (cfg : GridConfig) :
    0 ≤ (updateGridPositionFromExistingFlags flags cfg).1.1 := by
  unfold updateGridPositionFromExistingFlags
  split_ifs with h1
  · exact le_refl 0
  · exact updateGridCore_cursor_nonneg _ _ (computeColumnHeights_keys flags cfg)

/-- The reconciliation core returns exactly the stored heights. -/
theorem updateGridCore_snd (ch : ColHeights) (cfg : GridConfig) :
    (updateGridCore ch cfg).2 = ch := by
  unfold updateGridCore
  dsimp only
  split_ifs with h2
  · rfl
  · rfl

/-- Reconciliation only stores non-negative column keys. -/
theorem updateGrid_keys_nonneg (flags : List PlacedFlag) (cfg : GridConfig) :
    ∀ p ∈ (updateGridPositionFromExistingFlags flags cfg).2, 0 ≤ p.1 := by
  unfold updateGridPositionFromExistingFlags
  split_ifs with h1
  · simp
  · rw [updateGridCore_snd]
    exact computeColumnHeights_keys flags cfg

/-- The slot advance inside the retry loop never produces a negative
column. -/
theorem autoLoopStep_col_nonneg (cfg : GridConfig) (l t : ℚ) (col row : ℤ)
    (h : 0 ≤ col) : 0 ≤ (autoLoopStep cfg l t col row).1 := by
  unfold autoLoopStep
  split_ifs with h1 h2
  · exact le_refl 0
  · dsimp only
    split_ifs with h3
    · cases hf : (List.range cfg.maxItemsPerColumn.toNat).find?
          (fun r => !(wouldExceedCanvasBoundary (cfg.startX + cfg.itemWidth / 2)
            (slotTop cfg (r : ℤ)) cfg)) with
      | some r => simp [hf]
      | none => simp [hf]
    · show (0 : ℤ) ≤ col + 1
      omega
  · exact h

/-- One loop iteration never produces a negative column. -/
theorem autoLoopNext_col_nonneg (cfg : GridConfig) (st : LoopState)
    (h : 0 ≤ st.col) : 0 ≤ (autoLoopNext cfg st).col := by
  unfold autoLoopNext
  dsimp only
  split_ifs with h1
  · exact le_refl 0
  · exact autoLoopStep_col_nonneg cfg st.left st.top st.col st.row h

/-- The retry loop never produces a negative column. -/
theorem autoLoop_col_nonneg (cfg : GridConfig) :
    ∀ (fuel : Nat) (st : LoopState), 0 ≤ st.col →
      0 ≤ (autoLoop cfg fuel st).col := by
  intro fuel
  induction fuel with
  | zero => intro st h; simpa [autoLoop] using h
  | succ fuel ih =>
      intro st h
      by_cases hbE : st.bE = true
      · simp only [autoLoop, hbE, if_true]
        split_ifs with hbr
        · exact le_refl 0
        · exact ih _ (autoLoopNext_col_nonneg cfg st h)
      · have hbf : st.bE = false := by simpa using hbE
        simp only [autoLoop, hbf, Bool.false_eq_true, if_false]
        exact h

theorem autoResolve_col_nonneg (cfg : GridConfig) (col row : ℤ) (h : 0 ≤ col) :
    0 ≤ (autoResolve cfg col row).col :=
  autoLoop_col_nonneg cfg 20 _ h

/-- The cursor advance after a commit never produces a negative column,
given the committed column and all stored keys are non-negative. -/
theorem advanceCursor_nonneg (cfg : GridConfig) (r : ResolveResult) (ch : ColHeights)
    (hc : 0 ≤ r.col) (hch : ∀ p ∈ ch, 0 ≤ p.1) :
    0 ≤ (advanceCursor cfg r ch).1 := by
  unfold advanceCursor
  split_ifs with h1
  · dsimp only
    split_ifs with h2 h3
    · show 0 ≤ (shortestColSearch ch cfg).2.1
      rcases foldl_shortestStep_key cfg ch (false, 0, none) with h | h
      · simp only [shortestColSearch]
        simp only [h]
        exact le_refl 0
      · obtain ⟨p, hp, hpe⟩ := List.mem_map.mp h
        have hk := hch p hp
        simp only [shortestColSearch]
        omega
    · exact le_refl 0
    · show (0 : ℤ) ≤ r.col + 1
      omega
  · exact hc

/-- The invariant of claim C10: the cursor column is non-negative and
every key of the column-heights map is a non-negative column index. -/
def StateInv (s : BoardState) : Prop :=
  0 ≤ s.cursorCol ∧ ∀ p ∈ s.columnHeights, 0 ≤ p.1

theorem reconcileState_inv (cfg : GridConfig) (s : BoardState) :
    StateInv (reconcileState cfg s) :=
  ⟨updateGrid_cursor_nonneg s.flags cfg, updateGrid_keys_nonneg s.flags cfg⟩

theorem autoPlaceFlag_inv (env : Env) (ty : String) (s : BoardState)
    (h : StateInv s) : StateInv (autoPlaceFlag env ty s) := by
  unfold autoPlaceFlag
  split_ifs with hty
  · dsimp only
    have hcol : 0 ≤ (autoResolve (getGridConfig env) s.cursorCol s.cursorRow).col :=
      autoResolve_col_nonneg _ _ _ h.1
    have hkeys : ∀ p ∈ chSet s.columnHeights
        (autoResolve (getGridConfig env) s.cursorCol s.cursorRow).col
        (max (chGetD s.columnHeights
          (autoResolve (getGridConfig env) s.cursorCol s.cursorRow).col)
          ((autoResolve (getGridConfig env) s.cursorCol s.cursorRow).top +
            (getGridConfig env).itemHeight / 2)), 0 ≤ p.1 := by
      intro p hp
      rcases chSet_mem _ _ _ p hp with h' | h'
      · rw [h']; exact hcol
      · exact h.2 p h'
    exact ⟨advanceCursor_nonneg _ _ _ hcol hkeys, hkeys⟩
  · exact h

theorem applyOp_inv (s : BoardState) (op : EngineOp) (h : StateInv s) :
    StateInv (applyOp s op) := by
  cases op with
  | auto env ty => exact autoPlaceFlag_inv env ty s h
  | add env ty l t =>
      show StateInv (addFlag env ty l t s)
      unfold addFlag
      split_ifs with hty hm
      · exact reconcileState_inv _ _
      · exact reconcileState_inv _ _
      · exact h
  | move env id l t => exact reconcileState_inv _ _
  | remove env id => exact reconcileState_inv _ _
  | clear => exact ⟨le_refl 0, by simp [applyOp, clearBoard]⟩
  | load env flags => exact reconcileState_inv _ _

/-- The C10 invariant holds after every sequence of engine operations. -/
theorem runOps_inv (inv : List String) (ops : List EngineOp) :
    StateInv (runOps inv ops) := by
  have main : ∀ (l : List EngineOp) (s : BoardState), StateInv s →
      StateInv (l.foldl applyOp s) := by
    intro l
    induction l with
    | nil => intro s h; exact h
    | cons op tl ih => intro s h; exact ih _ (applyOp_inv s op h)
  exact main ops (initState inv) ⟨le_refl 0, by simp [initState]⟩

/-- Items assigned a negative column are skipped by the reconciliation
fold, so filtering them out does not change its result. -/
theorem foldl_chStep_filter (cfg : GridConfig) :
    ∀ (flags : List PlacedFlag) (ch : ColHeights),
      flags.foldl (chStep cfg) ch =
      (flags.filter fun f =>
        decide (0 ≤ Int.floor ((f.left - cfg.startX) / cfg.columnWidth))).foldl
        (chStep cfg) ch := by
  intro flags
  induction flags with
  | nil => intro ch; rfl
  | cons f tl ih =>
      intro ch
      by_cases h0 : 0 ≤ Int.floor ((f.left - cfg.startX) / cfg.columnWidth)
      · rw [List.filter_cons_of_pos (by simpa using h0)]
        simp only [List.foldl_cons]
        exact ih (chStep cfg ch f)
      · rw [List.filter_cons_of_neg (by simpa using h0)]
        simp only [List.foldl_cons]
        rw [show chStep cfg ch f = ch from by simp [chStep, h0]]
        exact ih ch

theorem computeColumnHeights_filter (flags : List PlacedFlag) (cfg : GridConfig) :
    computeColumnHeights flags cfg =
      computeColumnHeights
        (flags.filter fun f =>
          decide (0 ≤ Int.floor ((f.left - cfg.startX) / cfg.columnWidth))) cfg :=
  foldl_chStep_filter cfg flags []

/-- Reconciliation ignores items whose computed column is negative:
filtering them out yields the same cursor and the same column heights. -/
theorem updateGrid_filter (flags : List PlacedFlag) (cfg : GridConfig) :
    updateGridPositionFromExistingFlags flags cfg =
      updateGridPositionFromExistingFlags
        (flags.filter fun f =>
          decide (0 ≤ Int.floor ((f.left - cfg.startX) / cfg.columnWidth))) cfg := by
  by_cases h1 : flags.isEmpty
  · have he : flags = [] := by simpa using h1
    subst he
    rfl
  · have h1f : flags.isEmpty = false := by simpa using h1
    by_cases h2 : (flags.filter fun f =>
        decide (0 ≤ Int.floor ((f.left - cfg.startX) / cfg.columnWidth))).isEmpty
    · have hfe : (flags.filter fun f =>
          decide (0 ≤ Int.floor ((f.left - cfg.startX) / cfg.columnWidth))) = [] := by
        simpa using h2
      have hch : computeColumnHeights flags cfg = [] := by
        rw [computeColumnHeights_filter, hfe]
        rfl
      have hcore : updateGridCore ([] : ColHeights) cfg = ((0, 0), []) := by
        unfold updateGridCore
        dsimp only
        split_ifs with h3
        · rfl
        · rfl
      calc updateGridPositionFromExistingFlags flags cfg
          = updateGridCore (computeColumnHeights flags cfg) cfg := by
            unfold updateGridPositionFromExistingFlags
            rw [h1f]
            rfl
        _ = ((0, 0), []) := by rw [hch, hcore]
        _ = updateGridPositionFromExistingFlags
              (flags.filter fun f =>
                decide (0 ≤ Int.floor ((f.left - cfg.startX) / cfg.columnWidth))) cfg := by
            rw [hfe]
            rfl
    · have h2f : (flags.filter fun f =>
          decide (0 ≤ Int.floor ((f.left - cfg.startX) / cfg.columnWidth))).isEmpty = false := by
        simpa using h2
      calc updateGridPositionFromExistingFlags flags cfg
          = updateGridCore (computeColumnHeights flags cfg) cfg := by
            unfold updateGridPositionFromExistingFlags
            rw [h1f]
            rfl
        _ = updateGridCore (computeColumnHeights
              (flags.filter fun f =>
                decide (0 ≤ Int.floor ((f.left - cfg.startX) / cfg.columnWidth))) cfg) cfg := by
            rw [← computeColumnHeights_filter]
        _ = updateGridPositionFromExistingFlags
              (flags.filter fun f =>
                decide (0 ≤ Int.floor ((f.left - cfg.startX) / cfg.columnWidth))) cfg := by
            unfold updateGridPositionFromExistingFlags
            rw [h2f]
            rfl

/-- A flag moved strictly left of `startX` gets a negative computed
column (for the positive column widths the engine produces). -/
theorem floor_col_neg (cfg : GridConfig) (f : PlacedFlag)
    (hw : 0 < cfg.columnWidth) (hl : f.left < cfg.startX) :
    Int.floor ((f.left - cfg.startX) / cfg.columnWidth) < 0 := by
  have hq : (f.left - cfg.startX) / cfg.columnWidth < 0 :=
    div_neg_of_neg_of_pos (by linarith) hw
  exact Int.floor_lt.mpr (by exact_mod_cast hq)

/-- C10: after every sequence of engine operations every key of the
column-heights map is a non-negative column index; reconciliation gives
the same cursor and heights when items with a negative computed column
are removed; and an item moved left of `startX` has a negative computed
column, so it never contributes to the column heights or to the cursor
chosen for the next auto-placement. -/
theorem claim_C10 :
    (∀ (inv : List String) (ops : List EngineOp) (p : ℤ × ℚ),
        p ∈ (runOps inv ops).columnHeights → 0 ≤ p.1)
    ∧ (∀ (flags : List PlacedFlag) (cfg : GridConfig),
        updateGridPositionFromExistingFlags flags cfg =
          updateGridPositionFromExistingFlags
            (flags.filter fun f =>
              decide (0 ≤ Int.floor ((f.left - cfg.startX) / cfg.columnWidth))) cfg)
    ∧ (∀ (cfg : GridConfig) (f : PlacedFlag),
        0 < cfg.columnWidth → f.left < cfg.startX →
        Int.floor ((f.left - cfg.startX) / cfg.columnWidth) < 0) :=
  ⟨fun inv ops p hp => (runOps_inv inv ops).2 p hp,
   updateGrid_filter,
   floor_col_neg⟩

/-- Witness for C10: concrete instances — the key created by one auto
placement is non-negative; reconciling a board whose single item sits
left of `startX` equals reconciling the filtered (empty) board; and that
item's computed column is negative. -/
theorem claim_C10_witness :
    ((0 : ℤ), (87 : ℚ)) ∈ (runOps ["a"] [.auto ⟨true, none⟩ "a"]).columnHeights ∧
    (0 : ℤ) ≤ ((0 : ℤ), (87 : ℚ)).1
    ∧ updateGridPositionFromExistingFlags [⟨0, "a", 5, 100⟩]
        (getGridConfig ⟨true, some (320, 480)⟩) =
      updateGridPositionFromExistingFlags
        ([⟨0, "a", 5, 100⟩].filter fun f =>
          decide (0 ≤ Int.floor ((f.left - (getGridConfig ⟨true, some (320, 480)⟩).startX) /
            (getGridConfig ⟨true, some (320, 480)⟩).columnWidth)))
        (getGridConfig ⟨true, some (320, 480)⟩)
    ∧ Int.floor ((PlacedFlag.left ⟨0, "a", 5, 100⟩ -
          (getGridConfig ⟨true, some (320, 480)⟩).startX) /
        (getGridConfig ⟨true, some (320, 480)⟩).columnWidth) < 0 :=
  ⟨by with_unfolding_all decide,
   claim_C10.1 ["a"] [.auto ⟨true, none⟩ "a"] ((0 : ℤ), (87 : ℚ))
     (by with_unfolding_all decide),
   claim_C10.2.1 [⟨0, "a", 5, 100⟩] (getGridConfig ⟨true, some (320, 480)⟩),
   claim_C10.2.2 (getGridConfig ⟨true, some (320, 480)⟩) ⟨0, "a", 5, 100⟩
     (by with_unfolding_all decide) (by with_unfolding_all decide)⟩

end SignalCanvas
